import Mathlib

/-!
Verification development for the trxdb-loader ingestion pipeline
(package trxdb_loader, file trxdb-loader/loader.go).

We give a shallow embedding of the loader. The Commit Target (the
trxdb.DBWriter) is abstracted as an environment assigning to each database
call its result: none means success, some e means failure with error
message e. Each loader operation returns the updated loader state, the
ordered trace of external effects it issued (database calls and shutter
shutdowns), and its outcome: either a returned Go error value
(an Option String, none being a nil error) or a runtime panic. Machine
integers (uint64) are modelled as Nat; Go's modulus by zero panics, which
the embedding makes explicit. Wall-clock instants are modelled as Int
seconds, with "now" passed explicitly.
-/

namespace TrxdbLoader

abbrev Err := String

structure BlockHeader where
  hash : Nat
  parentHash : Nat
  number : Nat
  timestamp : Int
  deriving Repr, DecidableEq

structure Block where
  number : Nat
  hash : Nat
  header : BlockHeader
  deriving Repr, DecidableEq

/-- Block.MustTime returns the header timestamp. -/
def Block.mustTime (b : Block) : Int := b.header.timestamp

/-- The bstream step classification of a forkable delivery. -/
inductive StepType where
  | stepNew
  | stepUndo
  | stepRedo
  | stepHandoff
  | stepIrreversible
  | stepStalled
  deriving Repr, DecidableEq

def StepType.name : StepType → String
  | .stepNew => "New"
  | .stepUndo => "Undo"
  | .stepRedo => "Redo"
  | .stepHandoff => "Handoff"
  | .stepIrreversible => "Irreversible"
  | .stepStalled => "Stalled"

/-- The forkable.ForkableObject metadata attached to a delivery: the step,
the position of this delivery inside its irreversible group, the group
size, and the group blocks (StepBlocks, already converted to native). -/
structure ForkableObject where
  step : StepType
  stepIndex : Nat
  stepCount : Nat
  stepBlocks : List Block
  deriving Repr, DecidableEq

/-- A call made to the Commit Target (trxdb.DBWriter). -/
inductive DBCall where
  | putBlock (b : Block)
  | updateNowIrreversibleBlock (b : Block)
  | flush
  deriving Repr, DecidableEq

/-- An externally visible effect of the loader: a database call, or a
shutter Shutdown carrying its error argument (none is a nil error). -/
inductive Eff where
  | db (c : DBCall)
  | shutdown (e : Option Err)
  deriving Repr, DecidableEq

/-- The Commit Target behaviour: the result of each database call,
none meaning success and some e failure with message e. -/
abbrev DBEnv := DBCall → Option Err

/-- Outcome of running a piece of Go code: a normal result, or a runtime
panic with its message. -/
inductive Go (α : Type) where
  | ok (a : α)
  | panic (msg : String)
  deriving Repr, DecidableEq

/-- The loader state (struct BigtableLoader). The Shutter is modelled by
shutdownCause: none while the loader is live, some e once Shutdown e was
called (e itself being the Option Err passed to Shutdown). External
handles (db, blocksStore, source) live outside the state; the db is the
DBEnv parameter of each operation. -/
structure BigtableLoader where
  blockStreamAddr : String
  batchSize : Nat
  lastTickBlock : Nat
  lastTickTime : Int
  endBlock : Nat
  parallelFileDownloadCount : Int
  healthy : Bool
  shutdownCause : Option (Option Err)
  deriving Repr, DecidableEq

/-- NewBigtableLoader: a fresh loader; endBlock 0 (unbounded), health flag
unset, zero progress counters, no shutdown initiated. -/
def NewBigtableLoader (blockStreamAddr : String) (batchSize : Nat)
    (parallelFileDownloadCount : Int) : BigtableLoader :=
  { blockStreamAddr := blockStreamAddr
    batchSize := batchSize
    lastTickBlock := 0
    lastTickTime := 0
    endBlock := 0
    parallelFileDownloadCount := parallelFileDownloadCount
    healthy := false
    shutdownCause := none }

/-- StopBeforeBlock sets the exclusive stop block. -/
def StopBeforeBlock (l : BigtableLoader) (blockNum : Nat) : BigtableLoader :=
  { l with endBlock := blockNum }

def setUnhealthy (l : BigtableLoader) : BigtableLoader :=
  if l.healthy then { l with healthy := false } else l

def setHealthy (l : BigtableLoader) : BigtableLoader :=
  if ¬ l.healthy then { l with healthy := true } else l

def Healthy (l : BigtableLoader) : Bool := l.healthy

/-- Shutter.Shutdown: records the cause and emits the shutdown effect the
first time it is called; later calls are no-ops. -/
def Shutdown (l : BigtableLoader) (e : Option Err) : BigtableLoader × List Eff :=
  if l.shutdownCause.isSome then (l, [])
  else ({ l with shutdownCause := some e }, [.shutdown e])

def IsTerminating (l : BigtableLoader) : Bool := l.shutdownCause.isSome

/-- DoFlush issues a Flush call against the Commit Target and wraps a
failure as a flush-failed error. -/
def DoFlush (env : DBEnv) : List Eff × Option Err :=
  match env .flush with
  | none => ([.db .flush], none)
  | some e => ([.db .flush], some ("flush failed: " ++ e))

/-- FlushIfNeeded flushes when blockNum is a multiple of the batch size or
the block time is within 25 seconds of now. The modulus is computed with
no guard, so batchSize 0 is a runtime division-by-zero panic, as in Go. -/
def FlushIfNeeded (l : BigtableLoader) (env : DBEnv) (now : Int)
    (blockNum : Nat) (blockTime : Int) : List Eff × Go (Option Err) :=
  if l.batchSize = 0 then ([], .panic ("runtime error: integer divide by zero"))
  else if blockNum % l.batchSize = 0 ∨ now - blockTime < 25 then
    let fl := DoFlush env
    (fl.1, .ok fl.2)
  else ([], .ok none)

/-- ShowProgress updates the rate-reporting counters at most once every
five seconds (the log emission itself is not modelled). -/
def ShowProgress (l : BigtableLoader) (now : Int) (blockNum : Nat) : BigtableLoader :=
  if l.lastTickTime < now - 5 then
    { l with lastTickTime := now, lastTickBlock := blockNum }
  else l

/-- UpdateIrreversibleData finalizes each group block in order, stopping
at the first failing UpdateNowIrreversibleBlock call. -/
def UpdateIrreversibleData (env : DBEnv) : List Block → List Eff × Option Err
  | [] => ([], none)
  | b :: rest =>
    match env (.updateNowIrreversibleBlock b) with
    | some e => ([.db (.updateNowIrreversibleBlock b)], some e)
    | none =>
      let tail := UpdateIrreversibleData env rest
      (.db (.updateNowIrreversibleBlock b) :: tail.1, tail.2)

/-- The Genesis Sentinel synthesized from the first streamable block: a
block at the genesis height whose hash is the delivered block's parent
hash, bearing the delivered block's timestamp. -/
def genesisBlockOf (genesisNum : Nat) (block : Block) : Block :=
  { number := genesisNum
    hash := block.header.parentHash
    header :=
      { hash := block.header.parentHash
        parentHash := 0
        number := genesisNum
        timestamp := block.header.timestamp } }

/-- The genesis-sentinel section of the full job's New branch: when the
delivered block is the chain's first streamable block, write the sentinel
and immediately mark it irreversible, wrapping either failure. -/
def fullJobGenesis (firstStreamableBlock genesisNum : Nat) (env : DBEnv)
    (blockNum : Nat) (block : Block) : List Eff × Option Err :=
  if blockNum = firstStreamableBlock then
    let gb := genesisBlockOf genesisNum block
    match env (.putBlock gb) with
    | some e => ([.db (.putBlock gb)], some ("store genesis block: " ++ e))
    | none =>
      match env (.updateNowIrreversibleBlock gb) with
      | some e =>
        ([.db (.putBlock gb), .db (.updateNowIrreversibleBlock gb)],
          some ("set genesis block irreversible: " ++ e))
      | none =>
        ([.db (.putBlock gb), .db (.updateNowIrreversibleBlock gb)], none)
  else ([], none)

/-- FullJob: the full ingestion job. firstStreamableBlock and genesisNum
model the protocol globals bstream.GetProtocolFirstStreamableBlock and
bstream.GetProtocolGenesisBlock. Returns the updated loader, the effect
trace, and the outcome (returned error or panic). -/
def FullJob (firstStreamableBlock genesisNum : Nat) (l : BigtableLoader)
    (env : DBEnv) (now : Int) (blockNum : Nat) (block : Block)
    (fObj : ForkableObject) : BigtableLoader × List Eff × Go (Option Err) :=
  match fObj.step with
  | .stepNew =>
    let l := setHealthy (ShowProgress l now blockNum)
    match fullJobGenesis firstStreamableBlock genesisNum env blockNum block with
    | (tr, some e) => (l, tr, .ok (some e))
    | (tr, none) =>
      match env (.putBlock block) with
      | some e =>
        (l, tr ++ [.db (.putBlock block)], .ok (some ("store block: " ++ e)))
      | none =>
        let fl := FlushIfNeeded l env now blockNum block.mustTime
        (l, tr ++ [.db (.putBlock block)] ++ fl.1, fl.2)
  | .stepIrreversible =>
    if l.endBlock ≠ 0 ∧ l.endBlock ≤ blockNum ∧ fObj.stepCount = fObj.stepIndex + 1 then
      let fl := DoFlush env
      match fl.2 with
      | some e =>
        let sd := Shutdown l (some e)
        (sd.1, fl.1 ++ sd.2, .ok (some e))
      | none =>
        let sd := Shutdown l none
        (sd.1, fl.1 ++ sd.2, .ok none)
    else if fObj.stepIndex ≠ 0 then (l, [], .ok none)
    else
      match UpdateIrreversibleData env fObj.stepBlocks with
      | (tr, some e) => (l, tr, .ok (some e))
      | (tr, none) =>
        let fl := FlushIfNeeded l env now blockNum block.mustTime
        (l, tr ++ fl.1, fl.2)
  | s => (l, [], .ok (some ("unsupported forkable step \"" ++ s.name ++ "\"")))

/-- PatchJob: the patch ingestion job; records progress and flushes on New,
applies only the stop-block cutoff on Irreversible, and silently accepts
every other step. -/
def PatchJob (l : BigtableLoader) (env : DBEnv) (now : Int) (blockNum : Nat)
    (blk : Block) (fObj : ForkableObject) : BigtableLoader × List Eff × Go (Option Err) :=
  match fObj.step with
  | .stepNew =>
    let l := ShowProgress l now blockNum
    let fl := FlushIfNeeded l env now blockNum blk.mustTime
    (l, fl.1, fl.2)
  | .stepIrreversible =>
    if l.endBlock ≠ 0 ∧ l.endBlock ≤ blockNum ∧ fObj.stepCount = fObj.stepIndex + 1 then
      let fl := DoFlush env
      match fl.2 with
      | some e => (l, fl.1, .ok (some e))
      | none =>
        let sd := Shutdown l none
        (sd.1, fl.1 ++ sd.2, .ok none)
    else (l, [], .ok none)
  | _ => (l, [], .ok none)

/-- Which processing job the loader was built with. -/
inductive JobKind where
  | full
  | patch
  deriving Repr, DecidableEq

def runJob (k : JobKind) (firstStreamableBlock genesisNum : Nat)
    (l : BigtableLoader) (env : DBEnv) (now : Int) (blockNum : Nat)
    (block : Block) (fObj : ForkableObject) : BigtableLoader × List Eff × Go (Option Err) :=
  match k with
  | .full => FullJob firstStreamableBlock genesisNum l env now blockNum block fObj
  | .patch => PatchJob l env now blockNum block fObj

/-- ProcessBlock: skips the delivery when the loader is terminating,
otherwise runs the configured processing job with the block's number. -/
def ProcessBlock (k : JobKind) (firstStreamableBlock genesisNum : Nat)
    (l : BigtableLoader) (env : DBEnv) (now : Int) (block : Block)
    (fObj : ForkableObject) : BigtableLoader × List Eff × Go (Option Err) :=
  if IsTerminating l then (l, [], .ok none)
  else runJob k firstStreamableBlock genesisNum l env now block.number block fObj

/-- One classified delivery handed to ProcessBlock. -/
structure Delivery where
  block : Block
  fObj : ForkableObject
  deriving Repr, DecidableEq

/-- Sequential processing of a delivery sequence, as the composed source
drives ProcessBlock: it stops at the first delivery error or panic. -/
def processSeq (k : JobKind) (firstStreamableBlock genesisNum : Nat)
    (env : DBEnv) (now : Int) (l : BigtableLoader) :
    List Delivery → BigtableLoader × List Eff × Go (Option Err)
  | [] => (l, [], .ok none)
  | d :: ds =>
    match ProcessBlock k firstStreamableBlock genesisNum l env now d.block d.fObj with
    | (l1, tr, .ok none) =>
      let rest := processSeq k firstStreamableBlock genesisNum env now l1 ds
      (rest.1, tr ++ rest.2.1, rest.2.2)
    | (l1, tr, .ok (some e)) => (l1, tr, .ok (some e))
    | (l1, tr, .panic m) => (l1, tr, .panic m)

/-- The pipeline after Launch: the loader together with the source's
shutter state (none while the source runs, some e once it was shut down
with cause e). -/
structure Pipeline where
  loader : BigtableLoader
  sourceShutdownCause : Option (Option Err)
  deriving Repr, DecidableEq

/-- Composite effect of the source terminating with cause err, under the
callbacks Launch registers and the shutter contract of the external
shutter library (OnTerminating handlers run when shutdown starts, and
OnTerminated handlers run when termination completes): the source's
OnTerminating fires the loader's Shutdown err, the loader's OnTerminating
fires the source's Shutdown (a no-op, it is already terminating), and the
source's OnTerminated fires setUnhealthy. -/
def launchSourceTerminated (p : Pipeline) (err : Option Err) : Pipeline :=
  { loader := setUnhealthy (Shutdown p.loader err).1
    sourceShutdownCause :=
      if p.sourceShutdownCause.isSome then p.sourceShutdownCause else some err }

/-- Composite effect of a loader-initiated Shutdown err after Launch: if
the loader is already terminating nothing fires; otherwise the loader's
OnTerminating fires the source's Shutdown err, the source terminates, its
OnTerminating re-enters the loader's Shutdown (a no-op), and its
OnTerminated fires setUnhealthy. -/
def launchLoaderShutdown (p : Pipeline) (err : Option Err) : Pipeline :=
  if p.loader.shutdownCause.isSome then p
  else
    { loader := setUnhealthy { p.loader with shutdownCause := some err }
      sourceShutdownCause :=
        if p.sourceShutdownCause.isSome then p.sourceShutdownCause else some err }

/-- Environment in which every database call succeeds. -/
def envOk : DBEnv := fun _ => none

/-- Environment in which only the Flush call fails. -/
def envFlushFail : DBEnv := fun c =>
  match c with
  | .flush => some ("boom")
  | _ => none

/-- Environment in which every PutBlock call fails. -/
def envPutFail : DBEnv := fun c =>
  match c with
  | .putBlock _ => some ("boom")
  | _ => none

def blkA : Block :=
  { number := 1, hash := 11
    header := { hash := 11, parentHash := 77, number := 1, timestamp := 0 } }

def blkB : Block :=
  { number := 1, hash := 12
    header := { hash := 12, parentHash := 77, number := 1, timestamp := 0 } }

def blk5 : Block :=
  { number := 5, hash := 55
    header := { hash := 55, parentHash := 54, number := 5, timestamp := 0 } }

def fObjNew : ForkableObject :=
  { step := .stepNew, stepIndex := 0, stepCount := 1, stepBlocks := [] }

def fObjIrrLast : ForkableObject :=
  { step := .stepIrreversible, stepIndex := 0, stepCount := 1, stepBlocks := [] }

def l100 : BigtableLoader := NewBigtableLoader ("") 100 0

/-! Helper lemmas characterizing the embedded operations. -/

theorem doFlush_trace (env : DBEnv) : (DoFlush env).1 = [Eff.db .flush] := by
  unfold DoFlush
  cases env .flush <;> rfl

theorem doFlush_ok (env : DBEnv) (h : env .flush = none) :
    DoFlush env = ([Eff.db .flush], none) := by
  simp [DoFlush, h]

theorem doFlush_fail (env : DBEnv) (e : Err) (h : env .flush = some e) :
    DoFlush env = ([Eff.db .flush], some ("flush failed: " ++ e)) := by
  simp [DoFlush, h]

theorem uid_success (env : DBEnv) (bs : List Block)
    (h : ∀ b ∈ bs, env (.updateNowIrreversibleBlock b) = none) :
    UpdateIrreversibleData env bs =
      (bs.map fun b => Eff.db (.updateNowIrreversibleBlock b), none) := by
  induction bs with
  | nil => rfl
  | cons b rest ih =>
    have hb : env (.updateNowIrreversibleBlock b) = none := h b (by simp)
    have hrest : ∀ b2 ∈ rest, env (.updateNowIrreversibleBlock b2) = none :=
      fun b2 hb2 => h b2 (by simp [hb2])
    simp [UpdateIrreversibleData, hb, ih hrest]

theorem uid_firstFail (env : DBEnv) (pre : List Block) (b : Block)
    (post : List Block) (e : Err)
    (hpre : ∀ b2 ∈ pre, env (.updateNowIrreversibleBlock b2) = none)
    (hb : env (.updateNowIrreversibleBlock b) = some e) :
    UpdateIrreversibleData env (pre ++ b :: post) =
      ((pre.map fun b2 => Eff.db (.updateNowIrreversibleBlock b2)) ++
        [Eff.db (.updateNowIrreversibleBlock b)], some e) := by
  induction pre with
  | nil => simp [UpdateIrreversibleData, hb]
  | cons p ps ih =>
    have hp : env (.updateNowIrreversibleBlock p) = none := hpre p (by simp)
    have hps : ∀ b2 ∈ ps, env (.updateNowIrreversibleBlock b2) = none :=
      fun b2 hb2 => hpre b2 (by simp [hb2])
    simp [UpdateIrreversibleData, hp, ih hps]

theorem fullJob_new_state (fsb gen : Nat) (l : BigtableLoader) (env : DBEnv)
    (now : Int) (blockNum : Nat) (block : Block) (fObj : ForkableObject)
    (hstep : fObj.step = .stepNew) :
    (FullJob fsb gen l env now blockNum block fObj).1 =
      setHealthy (ShowProgress l now blockNum) := by
  obtain ⟨st, si, sc, sb⟩ := fObj
  simp only [ForkableObject.step] at hstep
  subst hstep
  simp only [FullJob]
  rcases hg : fullJobGenesis fsb gen env blockNum block with ⟨tr, r⟩
  cases r with
  | some e => simp [hg]
  | none =>
    cases hp : env (.putBlock block) with
    | some e => simp [hg, hp]
    | none => simp [hg, hp]

theorem fullJob_new_genesisFail (fsb gen : Nat) (l : BigtableLoader) (env : DBEnv)
    (now : Int) (blockNum : Nat) (block : Block) (fObj : ForkableObject)
    (hstep : fObj.step = .stepNew) (tr : List Eff) (e : Err)
    (hg : fullJobGenesis fsb gen env blockNum block = (tr, some e)) :
    FullJob fsb gen l env now blockNum block fObj =
      (setHealthy (ShowProgress l now blockNum), tr, .ok (some e)) := by
  obtain ⟨st, si, sc, sb⟩ := fObj
  simp only [ForkableObject.step] at hstep
  subst hstep
  simp [FullJob, hg]

theorem fullJob_new_putFail (fsb gen : Nat) (l : BigtableLoader) (env : DBEnv)
    (now : Int) (blockNum : Nat) (block : Block) (fObj : ForkableObject)
    (hstep : fObj.step = .stepNew) (tr : List Eff) (e : Err)
    (hg : fullJobGenesis fsb gen env blockNum block = (tr, none))
    (hp : env (.putBlock block) = some e) :
    FullJob fsb gen l env now blockNum block fObj =
      (setHealthy (ShowProgress l now blockNum), tr ++ [Eff.db (.putBlock block)],
        .ok (some ("store block: " ++ e))) := by
  obtain ⟨st, si, sc, sb⟩ := fObj
  simp only [ForkableObject.step] at hstep
  subst hstep
  simp [FullJob, hg, hp]

theorem fullJob_new_putOk (fsb gen : Nat) (l : BigtableLoader) (env : DBEnv)
    (now : Int) (blockNum : Nat) (block : Block) (fObj : ForkableObject)
    (hstep : fObj.step = .stepNew) (tr : List Eff)
    (hg : fullJobGenesis fsb gen env blockNum block = (tr, none))
    (hp : env (.putBlock block) = none) :
    FullJob fsb gen l env now blockNum block fObj =
      (setHealthy (ShowProgress l now blockNum),
        tr ++ [Eff.db (.putBlock block)] ++
          (FlushIfNeeded (setHealthy (ShowProgress l now blockNum)) env now blockNum
            block.mustTime).1,
        (FlushIfNeeded (setHealthy (ShowProgress l now blockNum)) env now blockNum
          block.mustTime).2) := by
  obtain ⟨st, si, sc, sb⟩ := fObj
  simp only [ForkableObject.step] at hstep
  subst hstep
  simp [FullJob, hg, hp]

theorem fullJob_irr_cutoff_flushOk (fsb gen : Nat) (l : BigtableLoader) (env : DBEnv)
    (now : Int) (blockNum : Nat) (block : Block) (fObj : ForkableObject)
    (hstep : fObj.step = .stepIrreversible)
    (hend : l.endBlock ≠ 0) (hge : l.endBlock ≤ blockNum)
    (hlast : fObj.stepCount = fObj.stepIndex + 1)
    (hlive : l.shutdownCause = none)
    (hf : env .flush = none) :
    FullJob fsb gen l env now blockNum block fObj =
      ({ l with shutdownCause := some none },
        [Eff.db .flush, Eff.shutdown none], .ok none) := by
  obtain ⟨st, si, sc, sb⟩ := fObj
  simp only [ForkableObject.step] at hstep
  simp only [ForkableObject.stepCount, ForkableObject.stepIndex] at hlast
  subst hstep
  simp only [FullJob]
  rw [if_pos ⟨hend, hge, hlast⟩]
  simp [doFlush_ok env hf, Shutdown, hlive]

theorem fullJob_irr_cutoff_flushFail (fsb gen : Nat) (l : BigtableLoader) (env : DBEnv)
    (now : Int) (blockNum : Nat) (block : Block) (fObj : ForkableObject)
    (hstep : fObj.step = .stepIrreversible)
    (hend : l.endBlock ≠ 0) (hge : l.endBlock ≤ blockNum)
    (hlast : fObj.stepCount = fObj.stepIndex + 1)
    (hlive : l.shutdownCause = none)
    (e : Err) (hf : env .flush = some e) :
    FullJob fsb gen l env now blockNum block fObj =
      ({ l with shutdownCause := some (some ("flush failed: " ++ e)) },
        [Eff.db .flush, Eff.shutdown (some ("flush failed: " ++ e))],
        .ok (some ("flush failed: " ++ e))) := by
  obtain ⟨st, si, sc, sb⟩ := fObj
  simp only [ForkableObject.step] at hstep
  simp only [ForkableObject.stepCount, ForkableObject.stepIndex] at hlast
  subst hstep
  simp only [FullJob]
  rw [if_pos ⟨hend, hge, hlast⟩]
  simp [doFlush_fail env e hf, Shutdown, hlive]

theorem fullJob_irr_dup (fsb gen : Nat) (l : BigtableLoader) (env : DBEnv)
    (now : Int) (blockNum : Nat) (block : Block) (fObj : ForkableObject)
    (hstep : fObj.step = .stepIrreversible)
    (hcut : ¬ (l.endBlock ≠ 0 ∧ l.endBlock ≤ blockNum ∧
      fObj.stepCount = fObj.stepIndex + 1))
    (hsi : fObj.stepIndex ≠ 0) :
    FullJob fsb gen l env now blockNum block fObj = (l, [], .ok none) := by
  obtain ⟨st, si, sc, sb⟩ := fObj
  simp only [ForkableObject.step] at hstep
  simp only [ForkableObject.stepCount, ForkableObject.stepIndex] at hcut hsi
  subst hstep
  simp only [FullJob]
  rw [if_neg hcut, if_pos hsi]

theorem fullJob_irr_first_fail (fsb gen : Nat) (l : BigtableLoader) (env : DBEnv)
    (now : Int) (blockNum : Nat) (block : Block) (fObj : ForkableObject)
    (hstep : fObj.step = .stepIrreversible)
    (hcut : ¬ (l.endBlock ≠ 0 ∧ l.endBlock ≤ blockNum ∧
      fObj.stepCount = fObj.stepIndex + 1))
    (hsi : fObj.stepIndex = 0) (tr : List Eff) (e : Err)
    (hu : UpdateIrreversibleData env fObj.stepBlocks = (tr, some e)) :
    FullJob fsb gen l env now blockNum block fObj = (l, tr, .ok (some e)) := by
  obtain ⟨st, si, sc, sb⟩ := fObj
  simp only [ForkableObject.step] at hstep
  simp only [ForkableObject.stepCount, ForkableObject.stepIndex] at hcut hsi
  simp only [ForkableObject.stepBlocks] at hu
  subst hstep
  subst hsi
  simp only [FullJob]
  rw [if_neg hcut]
  simp [hu]

theorem fullJob_irr_first_ok (fsb gen : Nat) (l : BigtableLoader) (env : DBEnv)
    (now : Int) (blockNum : Nat) (block : Block) (fObj : ForkableObject)
    (hstep : fObj.step = .stepIrreversible)
    (hcut : ¬ (l.endBlock ≠ 0 ∧ l.endBlock ≤ blockNum ∧
      fObj.stepCount = fObj.stepIndex + 1))
    (hsi : fObj.stepIndex = 0) (tr : List Eff)
    (hu : UpdateIrreversibleData env fObj.stepBlocks = (tr, none)) :
    FullJob fsb gen l env now blockNum block fObj =
      (l, tr ++ (FlushIfNeeded l env now blockNum block.mustTime).1,
        (FlushIfNeeded l env now blockNum block.mustTime).2) := by
  obtain ⟨st, si, sc, sb⟩ := fObj
  simp only [ForkableObject.step] at hstep
  simp only [ForkableObject.stepCount, ForkableObject.stepIndex] at hcut hsi
  simp only [ForkableObject.stepBlocks] at hu
  subst hstep
  subst hsi
  simp only [FullJob]
  rw [if_neg hcut]
  simp [hu]

theorem fullJob_other (fsb gen : Nat) (l : BigtableLoader) (env : DBEnv)
    (now : Int) (blockNum : Nat) (block : Block) (fObj : ForkableObject)
    (hnew : fObj.step ≠ .stepNew) (hirr : fObj.step ≠ .stepIrreversible) :
    FullJob fsb gen l env now blockNum block fObj =
      (l, [], .ok (some ("unsupported forkable step \"" ++ fObj.step.name ++ "\""))) := by
  obtain ⟨st, si, sc, sb⟩ := fObj
  simp only [ForkableObject.step] at hnew hirr ⊢
  cases st <;> simp_all <;> rfl

theorem patchJob_new_eq (l : BigtableLoader) (env : DBEnv)
    (now : Int) (blockNum : Nat) (blk : Block) (fObj : ForkableObject)
    (hstep : fObj.step = .stepNew) :
    PatchJob l env now blockNum blk fObj =
      (ShowProgress l now blockNum,
        (FlushIfNeeded (ShowProgress l now blockNum) env now blockNum blk.mustTime).1,
        (FlushIfNeeded (ShowProgress l now blockNum) env now blockNum blk.mustTime).2) := by
  obtain ⟨st, si, sc, sb⟩ := fObj
  simp only [ForkableObject.step] at hstep
  subst hstep
  simp [PatchJob]

theorem patchJob_irr_cutoff_flushOk (l : BigtableLoader) (env : DBEnv)
    (now : Int) (blockNum : Nat) (blk : Block) (fObj : ForkableObject)
    (hstep : fObj.step = .stepIrreversible)
    (hend : l.endBlock ≠ 0) (hge : l.endBlock ≤ blockNum)
    (hlast : fObj.stepCount = fObj.stepIndex + 1)
    (hlive : l.shutdownCause = none)
    (hf : env .flush = none) :
    PatchJob l env now blockNum blk fObj =
      ({ l with shutdownCause := some none },
        [Eff.db .flush, Eff.shutdown none], .ok none) := by
  obtain ⟨st, si, sc, sb⟩ := fObj
  simp only [ForkableObject.step] at hstep
  simp only [ForkableObject.stepCount, ForkableObject.stepIndex] at hlast
  subst hstep
  simp only [PatchJob]
  rw [if_pos ⟨hend, hge, hlast⟩]
  simp [doFlush_ok env hf, Shutdown, hlive]

theorem patchJob_irr_cutoff_flushFail (l : BigtableLoader) (env : DBEnv)
    (now : Int) (blockNum : Nat) (blk : Block) (fObj : ForkableObject)
    (hstep : fObj.step = .stepIrreversible)
    (hend : l.endBlock ≠ 0) (hge : l.endBlock ≤ blockNum)
    (hlast : fObj.stepCount = fObj.stepIndex + 1)
    (e : Err) (hf : env .flush = some e) :
    PatchJob l env now blockNum blk fObj =
      (l, [Eff.db .flush], .ok (some ("flush failed: " ++ e))) := by
  obtain ⟨st, si, sc, sb⟩ := fObj
  simp only [ForkableObject.step] at hstep
  simp only [ForkableObject.stepCount, ForkableObject.stepIndex] at hlast
  subst hstep
  simp only [PatchJob]
  rw [if_pos ⟨hend, hge, hlast⟩]
  simp [doFlush_fail env e hf]

theorem patchJob_irr_noCutoff (l : BigtableLoader) (env : DBEnv)
    (now : Int) (blockNum : Nat) (blk : Block) (fObj : ForkableObject)
    (hstep : fObj.step = .stepIrreversible)
    (hcut : ¬ (l.endBlock ≠ 0 ∧ l.endBlock ≤ blockNum ∧
      fObj.stepCount = fObj.stepIndex + 1)) :
    PatchJob l env now blockNum blk fObj = (l, [], .ok none) := by
  obtain ⟨st, si, sc, sb⟩ := fObj
  simp only [ForkableObject.step] at hstep
  simp only [ForkableObject.stepCount, ForkableObject.stepIndex] at hcut
  subst hstep
  simp only [PatchJob]
  rw [if_neg hcut]

theorem patchJob_other (l : BigtableLoader) (env : DBEnv)
    (now : Int) (blockNum : Nat) (blk : Block) (fObj : ForkableObject)
    (hnew : fObj.step ≠ .stepNew) (hirr : fObj.step ≠ .stepIrreversible) :
    PatchJob l env now blockNum blk fObj = (l, [], .ok none) := by
  obtain ⟨st, si, sc, sb⟩ := fObj
  simp only [ForkableObject.step] at hnew hirr
  cases st <;> simp_all <;> rfl

def fObjUndo : ForkableObject :=
  { step := .stepUndo, stepIndex := 0, stepCount := 1, stepBlocks := [] }

/-! Claim theorems. -/

/-- C3: FlushIfNeeded issues a flush if and only if blockNum is an exact
multiple of the configured batch size or the block's timestamp is within
the 25-second staleness window of now; in particular with batch size 100
and blocks 1..250 all bearing old timestamps, flushes occur exactly at
blocks 100 and 200. -/
theorem C3_flush_iff (l : BigtableLoader) (env : DBEnv) (now ts : Int)
    (blockNum : Nat) (h : l.batchSize ≠ 0) :
    (Eff.db .flush ∈ (FlushIfNeeded l env now blockNum ts).1 ↔
      blockNum % l.batchSize = 0 ∨ now - ts < 25) ∧
    (l.batchSize = 100 → 25 ≤ now - ts →
      ∀ n, 1 ≤ n → n ≤ 250 →
        (Eff.db .flush ∈ (FlushIfNeeded l env now n ts).1 ↔ n = 100 ∨ n = 200)) := by
  constructor
  · simp only [FlushIfNeeded, if_neg h]
    by_cases hc : blockNum % l.batchSize = 0 ∨ now - ts < 25
    · rw [if_pos hc]
      simpa [doFlush_trace env] using hc
    · rw [if_neg hc]
      simpa using hc
  · intro h100 hts n h1 h2
    simp only [FlushIfNeeded, if_neg h]
    by_cases hm : n % l.batchSize = 0 ∨ now - ts < 25
    · rw [if_pos hm]
      simp only [doFlush_trace env, List.mem_singleton, true_iff]
      rcases hm with hm | hm
      · rw [h100] at hm
        omega
      · omega
    · rw [if_neg hm]
      push_neg at hm
      rw [h100] at hm
      simp only [List.not_mem_nil, false_iff]
      omega

/-- Witness for C3: batch size 100, block 100, an old timestamp. -/
theorem C3_flush_iff_witness :
    Eff.db .flush ∈ (FlushIfNeeded l100 envOk 1000 100 0).1 :=
  (C3_flush_iff l100 envOk 1000 0 100 (by decide)).1.mpr (Or.inl (by decide))

/-- C6: on an Irreversible delivery at the stop-block cutoff (endBlock set,
reached by blockNum, final index of its group), FullJob forces an
unconditional flush and shuts the pipeline down: on flush success it shuts
down with a nil error and returns nil; on flush failure it shuts down with
the wrapped flush error and returns it. -/
theorem C6_cutoff_terminates (fsb gen : Nat) (l : BigtableLoader) (env : DBEnv)
    (now : Int) (blockNum : Nat) (block : Block) (fObj : ForkableObject)
    (hstep : fObj.step = .stepIrreversible)
    (hend : l.endBlock ≠ 0) (hge : l.endBlock ≤ blockNum)
    (hlast : fObj.stepCount = fObj.stepIndex + 1)
    (hlive : l.shutdownCause = none) :
    (env .flush = none →
      FullJob fsb gen l env now blockNum block fObj =
        ({ l with shutdownCause := some none },
          [Eff.db .flush, Eff.shutdown none], .ok none)) ∧
    (∀ e, env .flush = some e →
      FullJob fsb gen l env now blockNum block fObj =
        ({ l with shutdownCause := some (some ("flush failed: " ++ e)) },
          [Eff.db .flush, Eff.shutdown (some ("flush failed: " ++ e))],
          .ok (some ("flush failed: " ++ e)))) :=
  ⟨fun hf =>
    fullJob_irr_cutoff_flushOk fsb gen l env now blockNum block fObj hstep hend hge
      hlast hlive hf,
   fun e hf =>
    fullJob_irr_cutoff_flushFail fsb gen l env now blockNum block fObj hstep hend hge
      hlast hlive e hf⟩

/-- Witness for C6: stop block 5, Irreversible delivery of block 7 as the
final index of its group, flush succeeding. -/
theorem C6_cutoff_terminates_witness :
    FullJob 1 0 (StopBeforeBlock l100 5) envOk 1000 7 blk5 fObjIrrLast =
      ({ StopBeforeBlock l100 5 with shutdownCause := some none },
        [Eff.db .flush, Eff.shutdown none], .ok none) :=
  (C6_cutoff_terminates 1 0 (StopBeforeBlock l100 5) envOk 1000 7 blk5 fObjIrrLast
    rfl (by decide) (by decide) rfl rfl).1 rfl

/-- C7 counterexample: PatchJob on an Undo-step delivery returns a nil
error with no effects, rather than failing as the claim states that both
jobs do. -/
theorem C7_counterexample :
    PatchJob l100 envOk 1000 3 blkA fObjUndo = (l100, [], .ok none) := rfl

/-- C7 (amended): for a delivery whose step is neither New nor
Irreversible, FullJob fails immediately with an unsupported-step error and
no effects, while PatchJob silently succeeds, also with no effects. -/
theorem C7_unsupported_step (fsb gen : Nat) (l : BigtableLoader) (env : DBEnv)
    (now : Int) (blockNum : Nat) (block : Block) (fObj : ForkableObject)
    (hnew : fObj.step ≠ .stepNew) (hirr : fObj.step ≠ .stepIrreversible) :
    FullJob fsb gen l env now blockNum block fObj =
      (l, [], .ok (some ("unsupported forkable step \"" ++ fObj.step.name ++ "\""))) ∧
    PatchJob l env now blockNum block fObj = (l, [], .ok none) :=
  ⟨fullJob_other fsb gen l env now blockNum block fObj hnew hirr,
   patchJob_other l env now blockNum block fObj hnew hirr⟩

/-- Witness for C7: FullJob rejects an Undo-step delivery. -/
theorem C7_unsupported_step_witness :
    FullJob 1 0 l100 envOk 1000 3 blkA fObjUndo =
      (l100, [],
        .ok (some ("unsupported forkable step \"" ++ fObjUndo.step.name ++ "\""))) :=
  (C7_unsupported_step 1 0 l100 envOk 1000 3 blkA fObjUndo (by decide) (by decide)).1

/-- C10: when the stop-block cutoff's forced flush fails, PatchJob returns
the flush error without issuing any Shutdown, whereas FullJob on the same
condition shuts down with that error before returning it. -/
theorem C10_flushFail_shutdown_difference (fsb gen : Nat) (l : BigtableLoader)
    (env : DBEnv) (now : Int) (blockNum : Nat) (block : Block)
    (fObj : ForkableObject)
    (hstep : fObj.step = .stepIrreversible)
    (hend : l.endBlock ≠ 0) (hge : l.endBlock ≤ blockNum)
    (hlast : fObj.stepCount = fObj.stepIndex + 1)
    (hlive : l.shutdownCause = none)
    (e : Err) (hf : env .flush = some e) :
    PatchJob l env now blockNum block fObj =
      (l, [Eff.db .flush], .ok (some ("flush failed: " ++ e))) ∧
    (∀ ef, Eff.shutdown ef ∉ (PatchJob l env now blockNum block fObj).2.1) ∧
    FullJob fsb gen l env now blockNum block fObj =
      ({ l with shutdownCause := some (some ("flush failed: " ++ e)) },
        [Eff.db .flush, Eff.shutdown (some ("flush failed: " ++ e))],
        .ok (some ("flush failed: " ++ e))) := by
  have hp := patchJob_irr_cutoff_flushFail l env now blockNum block fObj hstep hend
    hge hlast e hf
  refine ⟨hp, ?_,
    fullJob_irr_cutoff_flushFail fsb gen l env now blockNum block fObj hstep hend hge
      hlast hlive e hf⟩
  intro ef
  rw [hp]
  simp

/-- Witness for C10: stop block 5, block 7, failing flush. -/
theorem C10_flushFail_shutdown_difference_witness :
    PatchJob (StopBeforeBlock l100 5) envFlushFail 1000 7 blk5 fObjIrrLast =
      (StopBeforeBlock l100 5, [Eff.db .flush],
        .ok (some ("flush failed: " ++ "boom"))) :=
  (C10_flushFail_shutdown_difference 1 0 (StopBeforeBlock l100 5) envFlushFail 1000 7
    blk5 fObjIrrLast rfl (by decide) (by decide) rfl rfl ("boom") rfl).1

def blk2 : Block :=
  { number := 2, hash := 22
    header := { hash := 22, parentHash := 11, number := 2, timestamp := 0 } }

def l0bz : BigtableLoader := NewBigtableLoader ("") 0 0

theorem flushIfNeeded_trace_shape (l : BigtableLoader) (env : DBEnv) (now : Int)
    (blockNum : Nat) (ts : Int) :
    (FlushIfNeeded l env now blockNum ts).1 = [] ∨
    (FlushIfNeeded l env now blockNum ts).1 = [Eff.db .flush] := by
  unfold FlushIfNeeded
  split
  · exact Or.inl rfl
  · split
    · exact Or.inr (by simp [doFlush_trace])
    · exact Or.inl rfl

theorem shutdown_trace_no_db (l : BigtableLoader) (e : Option Err) (c : DBCall) :
    Eff.db c ∉ (Shutdown l e).2 := by
  unfold Shutdown
  split <;> simp

theorem uid_trace_no_put (env : DBEnv) (bs : List Block) (b : Block) :
    Eff.db (.putBlock b) ∉ (UpdateIrreversibleData env bs).1 := by
  induction bs with
  | nil => simp [UpdateIrreversibleData]
  | cons x rest ih =>
    simp only [UpdateIrreversibleData]
    cases hx : env (.updateNowIrreversibleBlock x) with
    | some e => simp
    | none => simp [ih]

theorem fullJob_irr_cutoff_trace (fsb gen : Nat) (l : BigtableLoader) (env : DBEnv)
    (now : Int) (blockNum : Nat) (block : Block) (fObj : ForkableObject)
    (hstep : fObj.step = .stepIrreversible)
    (hend : l.endBlock ≠ 0) (hge : l.endBlock ≤ blockNum)
    (hlast : fObj.stepCount = fObj.stepIndex + 1) :
    (FullJob fsb gen l env now blockNum block fObj).2.1 =
      (DoFlush env).1 ++ (Shutdown l (DoFlush env).2).2 := by
  obtain ⟨st, si, sc, sb⟩ := fObj
  simp only [ForkableObject.step] at hstep
  simp only [ForkableObject.stepCount, ForkableObject.stepIndex] at hlast
  subst hstep
  simp only [FullJob]
  rw [if_pos ⟨hend, hge, hlast⟩]
  cases hf : env .flush with
  | none => simp [doFlush_ok env hf]
  | some e => simp [doFlush_fail env e hf]

theorem patchJob_irr_cutoff_trace (l : BigtableLoader) (env : DBEnv)
    (now : Int) (blockNum : Nat) (blk : Block) (fObj : ForkableObject)
    (hstep : fObj.step = .stepIrreversible)
    (hend : l.endBlock ≠ 0) (hge : l.endBlock ≤ blockNum)
    (hlast : fObj.stepCount = fObj.stepIndex + 1) :
    (PatchJob l env now blockNum blk fObj).2.1 =
      (DoFlush env).1 ++
        (match (DoFlush env).2 with
          | some _ => []
          | none => (Shutdown l none).2) := by
  obtain ⟨st, si, sc, sb⟩ := fObj
  simp only [ForkableObject.step] at hstep
  simp only [ForkableObject.stepCount, ForkableObject.stepIndex] at hlast
  subst hstep
  simp only [PatchJob]
  rw [if_pos ⟨hend, hge, hlast⟩]
  cases hf : env .flush with
  | none => simp [doFlush_ok env hf]
  | some e => simp [doFlush_fail env e hf]

theorem showProgress_batchSize (l : BigtableLoader) (now : Int) (blockNum : Nat) :
    (ShowProgress l now blockNum).batchSize = l.batchSize := by
  unfold ShowProgress
  split <;> rfl

theorem setHealthy_batchSize (l : BigtableLoader) :
    (setHealthy l).batchSize = l.batchSize := by
  unfold setHealthy
  split <;> rfl

/-- C1 counterexample: with stop block 5 configured, a New delivery of
block number 5 still issues a PutBlock of that block, so a block with
number greater than or equal to the stop block is written. -/
theorem C1_counterexample :
    (StopBeforeBlock l100 5).endBlock = 5 ∧
    Eff.db (.putBlock blk5) ∈
      (FullJob 1 0 (StopBeforeBlock l100 5) envOk 1000 5 blk5 fObjNew).2.1 ∧
    5 ≤ blk5.number := by
  refine ⟨rfl, by decide, by decide⟩

/-- C1 (amended): the stop-block does not bound PutBlock calls on New
deliveries; what holds is that FullJob issues PutBlock only on New
deliveries: any delivery whose step is not New, in particular every
Irreversible delivery including the cutoff one, issues no PutBlock. -/
theorem C1_no_put_outside_new (fsb gen : Nat) (l : BigtableLoader) (env : DBEnv)
    (now : Int) (blockNum : Nat) (block : Block) (fObj : ForkableObject)
    (hstep : fObj.step ≠ .stepNew) :
    ∀ b, Eff.db (.putBlock b) ∉ (FullJob fsb gen l env now blockNum block fObj).2.1 := by
  intro b
  by_cases hirr : fObj.step = .stepIrreversible
  · by_cases hcut : (l.endBlock ≠ 0 ∧ l.endBlock ≤ blockNum ∧
      fObj.stepCount = fObj.stepIndex + 1)
    · rw [fullJob_irr_cutoff_trace fsb gen l env now blockNum block fObj hirr hcut.1
        hcut.2.1 hcut.2.2]
      intro hmem
      rcases List.mem_append.mp hmem with hmem | hmem
      · rw [doFlush_trace env] at hmem
        simp at hmem
      · exact shutdown_trace_no_db l (DoFlush env).2 (.putBlock b) hmem
    · by_cases hsi : fObj.stepIndex = 0
      · rcases hu : UpdateIrreversibleData env fObj.stepBlocks with ⟨tr, r⟩
        cases r with
        | some e =>
          rw [fullJob_irr_first_fail fsb gen l env now blockNum block fObj hirr hcut
            hsi tr e hu]
          intro hmem
          have := uid_trace_no_put env fObj.stepBlocks b
          rw [hu] at this
          exact this hmem
        | none =>
          rw [fullJob_irr_first_ok fsb gen l env now blockNum block fObj hirr hcut
            hsi tr hu]
          intro hmem
          rcases List.mem_append.mp hmem with hmem | hmem
          · have := uid_trace_no_put env fObj.stepBlocks b
            rw [hu] at this
            exact this hmem
          · rcases flushIfNeeded_trace_shape l env now blockNum block.mustTime with
              hsh | hsh <;> rw [hsh] at hmem <;> simp at hmem
      · rw [fullJob_irr_dup fsb gen l env now blockNum block fObj hirr hcut hsi]
        simp
  · rw [fullJob_other fsb gen l env now blockNum block fObj hstep hirr]
    simp

/-- Witness for C1 (amended): the cutoff delivery writes no block. -/
theorem C1_no_put_outside_new_witness :
    Eff.db (.putBlock blk5) ∉
      (FullJob 1 0 (StopBeforeBlock l100 5) envOk 1000 7 blk5 fObjIrrLast).2.1 :=
  C1_no_put_outside_new 1 0 (StopBeforeBlock l100 5) envOk 1000 7 blk5 fObjIrrLast
    (by decide) blk5

/-- C2: for an Irreversible delivery that does not hit the stop-block
cutoff: if StepIndex is nonzero the delivery is a no-op returning success
with no finalize call; if StepIndex is zero, every block of the group's
StepBlocks is finalized in group order, aborting on the first failure, and
on success the flush controller is then invoked. -/
theorem C2_irreversible_group (fsb gen : Nat) (l : BigtableLoader) (env : DBEnv)
    (now : Int) (blockNum : Nat) (block : Block) (fObj : ForkableObject)
    (hstep : fObj.step = .stepIrreversible)
    (hcut : ¬ (l.endBlock ≠ 0 ∧ l.endBlock ≤ blockNum ∧
      fObj.stepCount = fObj.stepIndex + 1)) :
    (fObj.stepIndex ≠ 0 →
      FullJob fsb gen l env now blockNum block fObj = (l, [], .ok none)) ∧
    (fObj.stepIndex = 0 →
      ((∀ b ∈ fObj.stepBlocks, env (.updateNowIrreversibleBlock b) = none) →
        FullJob fsb gen l env now blockNum block fObj =
          (l, (fObj.stepBlocks.map fun b => Eff.db (.updateNowIrreversibleBlock b)) ++
            (FlushIfNeeded l env now blockNum block.mustTime).1,
            (FlushIfNeeded l env now blockNum block.mustTime).2)) ∧
      (∀ pre b post e, fObj.stepBlocks = pre ++ b :: post →
        (∀ b2 ∈ pre, env (.updateNowIrreversibleBlock b2) = none) →
        env (.updateNowIrreversibleBlock b) = some e →
        FullJob fsb gen l env now blockNum block fObj =
          (l, (pre.map fun b2 => Eff.db (.updateNowIrreversibleBlock b2)) ++
            [Eff.db (.updateNowIrreversibleBlock b)], .ok (some e)))) := by
  refine ⟨fun hsi => fullJob_irr_dup fsb gen l env now blockNum block fObj hstep hcut
    hsi, fun hsi => ⟨?_, ?_⟩⟩
  · intro hall
    exact fullJob_irr_first_ok fsb gen l env now blockNum block fObj hstep hcut hsi _
      (uid_success env _ hall)
  · intro pre b post e hsplit hpre hb
    refine fullJob_irr_first_fail fsb gen l env now blockNum block fObj hstep hcut hsi
      _ e ?_
    rw [hsplit]
    exact uid_firstFail env pre b post e hpre hb

def fObjIrrGroup : ForkableObject :=
  { step := .stepIrreversible, stepIndex := 0, stepCount := 2, stepBlocks := [blkA] }

/-- Witness for C2: a first-index Irreversible group of one block, every
call succeeding, no flush due. -/
theorem C2_irreversible_group_witness :
    FullJob 1 0 l100 envOk 1000 7 blk5 fObjIrrGroup =
      (l100, [Eff.db (.updateNowIrreversibleBlock blkA)], .ok none) := by
  have h := ((C2_irreversible_group 1 0 l100 envOk 1000 7 blk5 fObjIrrGroup rfl
    (by decide)).2 rfl).1 (by decide)
  exact h.trans (by rfl)

/-- C8: PatchJob never writes to the Commit Target: its trace contains no
PutBlock and no UpdateNowIrreversibleBlock on any delivery; on a New
delivery it only records progress and runs the flush controller, and on an
Irreversible delivery off the cutoff it performs nothing and succeeds. -/
theorem C8_patchJob_frame (l : BigtableLoader) (env : DBEnv) (now : Int)
    (blockNum : Nat) (blk : Block) (fObj : ForkableObject) :
    (∀ b, Eff.db (.putBlock b) ∉ (PatchJob l env now blockNum blk fObj).2.1 ∧
      Eff.db (.updateNowIrreversibleBlock b) ∉
        (PatchJob l env now blockNum blk fObj).2.1) ∧
    (fObj.step = .stepNew →
      PatchJob l env now blockNum blk fObj =
        (ShowProgress l now blockNum,
          (FlushIfNeeded (ShowProgress l now blockNum) env now blockNum blk.mustTime).1,
          (FlushIfNeeded (ShowProgress l now blockNum) env now blockNum
            blk.mustTime).2)) ∧
    (fObj.step = .stepIrreversible →
      ¬ (l.endBlock ≠ 0 ∧ l.endBlock ≤ blockNum ∧
        fObj.stepCount = fObj.stepIndex + 1) →
      PatchJob l env now blockNum blk fObj = (l, [], .ok none)) := by
  refine ⟨?_, fun hstep => patchJob_new_eq l env now blockNum blk fObj hstep,
    fun hstep hcut => patchJob_irr_noCutoff l env now blockNum blk fObj hstep hcut⟩
  intro b
  by_cases hnew : fObj.step = .stepNew
  · rw [patchJob_new_eq l env now blockNum blk fObj hnew]
    rcases flushIfNeeded_trace_shape (ShowProgress l now blockNum) env now blockNum
      blk.mustTime with hsh | hsh <;> simp [hsh]
  · by_cases hirr : fObj.step = .stepIrreversible
    · by_cases hcut : (l.endBlock ≠ 0 ∧ l.endBlock ≤ blockNum ∧
        fObj.stepCount = fObj.stepIndex + 1)
      · have hnodb : ∀ c : DBCall, c ≠ .flush →
            Eff.db c ∉ (PatchJob l env now blockNum blk fObj).2.1 := by
          intro c hc
          rw [patchJob_irr_cutoff_trace l env now blockNum blk fObj hirr hcut.1
            hcut.2.1 hcut.2.2]
          intro hmem
          rcases List.mem_append.mp hmem with hmem | hmem
          · rw [doFlush_trace env] at hmem
            simp at hmem
            exact hc hmem
          · cases hdf : (DoFlush env).2 with
            | some e =>
              rw [hdf] at hmem
              simp at hmem
            | none =>
              rw [hdf] at hmem
              exact shutdown_trace_no_db l none c hmem
        exact ⟨hnodb (.putBlock b) (by simp), hnodb (.updateNowIrreversibleBlock b)
          (by simp)⟩
      · rw [patchJob_irr_noCutoff l env now blockNum blk fObj hirr hcut]
        simp
    · rw [patchJob_other l env now blockNum blk fObj hnew hirr]
      simp

/-- Witness for C8: a New delivery under PatchJob with no flush due. -/
theorem C8_patchJob_frame_witness :
    PatchJob l100 envOk 1000 7 blkA fObjNew =
      (ShowProgress l100 1000 7, [], .ok none) :=
  ((C8_patchJob_frame l100 envOk 1000 7 blkA fObjNew).2.1 rfl).trans (by rfl)

/-- C9 counterexample: with batch size 0, a New delivery under FullJob
whose PutBlock fails returns the store error without reaching the
division, so not every New delivery divides by zero. -/
theorem C9_counterexample :
    l0bz.batchSize = 0 ∧
    (FullJob 1 0 l0bz envPutFail 1000 2 blk2 fObjNew).2.2 =
      .ok (some ("store block: " ++ "boom")) :=
  ⟨rfl, rfl⟩

/-- C9 (amended): FlushIfNeeded computes blockNum % batchSize with no
guard, so it is total only under a positive batch size: with batchSize 0
every call panics with a division by zero and with a nonzero batchSize no
call panics; consequently with batchSize 0 every New delivery that reaches
the flush check panics: every New delivery under PatchJob, and under
FullJob every New delivery whose writes succeed (one whose PutBlock fails
returns that error before the division). -/
theorem C9_divide_by_zero (l : BigtableLoader) (env : DBEnv) (now : Int)
    (blockNum : Nat) (ts : Int) :
    (l.batchSize = 0 →
      FlushIfNeeded l env now blockNum ts =
        ([], .panic ("runtime error: integer divide by zero"))) ∧
    (l.batchSize ≠ 0 →
      ∀ m, (FlushIfNeeded l env now blockNum ts).2 ≠ .panic m) ∧
    (∀ blk fObj, fObj.step = .stepNew → l.batchSize = 0 →
      (PatchJob l env now blockNum blk fObj).2.2 =
        .panic ("runtime error: integer divide by zero")) ∧
    (∀ fsb gen blk fObj tr, fObj.step = .stepNew → l.batchSize = 0 →
      fullJobGenesis fsb gen env blockNum blk = (tr, none) →
      env (.putBlock blk) = none →
      (FullJob fsb gen l env now blockNum blk fObj).2.2 =
        .panic ("runtime error: integer divide by zero")) := by
  refine ⟨fun h0 => by simp [FlushIfNeeded, h0], fun h0 m => ?_, ?_, ?_⟩
  · simp only [FlushIfNeeded, if_neg h0]
    split
    · simp
    · simp
  · intro blk fObj hstep h0
    rw [patchJob_new_eq l env now blockNum blk fObj hstep]
    have hb : (ShowProgress l now blockNum).batchSize = 0 := by
      rw [showProgress_batchSize]
      exact h0
    simp [FlushIfNeeded, hb]
  · intro fsb gen blk fObj tr hstep h0 hg hp
    rw [fullJob_new_putOk fsb gen l env now blockNum blk fObj hstep tr hg hp]
    have hb : (setHealthy (ShowProgress l now blockNum)).batchSize = 0 := by
      rw [setHealthy_batchSize, showProgress_batchSize]
      exact h0
    simp [FlushIfNeeded, hb]

/-- Witness for C9: a loader constructed with batch size 0 panics in
FlushIfNeeded. -/
theorem C9_divide_by_zero_witness :
    FlushIfNeeded l0bz envOk 1000 7 0 =
      ([], .panic ("runtime error: integer divide by zero")) :=
  (C9_divide_by_zero l0bz envOk 1000 7 0).1 rfl

/-- C4 counterexample: a pipeline lifetime in which two competing children
of the genesis block are both delivered as New (a fork at the first
streamable height) writes the Genesis Sentinel twice, not exactly once. -/
theorem C4_counterexample :
    ((processSeq .full 1 0 envOk 1000 l100
        [⟨blkA, fObjNew⟩, ⟨blkB, fObjNew⟩]).2.1.count
      (Eff.db (.putBlock (genesisBlockOf 0 blkA))) = 2) := by
  decide

/-- C4 (amended): the Genesis Sentinel is written via PutBlock and
immediately finalized on every New delivery whose block number equals the
chain's first streamable block, not only on the first such delivery of a
pipeline lifetime; deliveries of other heights issue no sentinel call;
failure of the sentinel write or finalize aborts the delivery with a
wrapped error. -/
theorem C4_genesis_sentinel (fsb gen : Nat) (l : BigtableLoader) (env : DBEnv)
    (now : Int) (blockNum : Nat) (block : Block) (fObj : ForkableObject)
    (hstep : fObj.step = .stepNew) :
    (blockNum ≠ fsb → fullJobGenesis fsb gen env blockNum block = ([], none)) ∧
    (blockNum = fsb →
      (∀ e, env (.putBlock (genesisBlockOf gen block)) = some e →
        fullJobGenesis fsb gen env blockNum block =
          ([Eff.db (.putBlock (genesisBlockOf gen block))],
            some ("store genesis block: " ++ e))) ∧
      (∀ e, env (.putBlock (genesisBlockOf gen block)) = none →
        env (.updateNowIrreversibleBlock (genesisBlockOf gen block)) = some e →
        fullJobGenesis fsb gen env blockNum block =
          ([Eff.db (.putBlock (genesisBlockOf gen block)),
            Eff.db (.updateNowIrreversibleBlock (genesisBlockOf gen block))],
            some ("set genesis block irreversible: " ++ e))) ∧
      (env (.putBlock (genesisBlockOf gen block)) = none →
        env (.updateNowIrreversibleBlock (genesisBlockOf gen block)) = none →
        fullJobGenesis fsb gen env blockNum block =
          ([Eff.db (.putBlock (genesisBlockOf gen block)),
            Eff.db (.updateNowIrreversibleBlock (genesisBlockOf gen block))], none))) ∧
    (∀ tr e, fullJobGenesis fsb gen env blockNum block = (tr, some e) →
      FullJob fsb gen l env now blockNum block fObj =
        (setHealthy (ShowProgress l now blockNum), tr, .ok (some e))) ∧
    (∀ tr, fullJobGenesis fsb gen env blockNum block = (tr, none) →
      tr <+: (FullJob fsb gen l env now blockNum block fObj).2.1) := by
  refine ⟨fun hne => by simp [fullJobGenesis, hne], ?_, ?_, ?_⟩
  · intro heq
    subst heq
    refine ⟨fun e he => by simp [fullJobGenesis, he], fun e h1 h2 => by
      simp [fullJobGenesis, h1, h2], fun h1 h2 => by simp [fullJobGenesis, h1, h2]⟩
  · intro tr e hg
    exact fullJob_new_genesisFail fsb gen l env now blockNum block fObj hstep tr e hg
  · intro tr hg
    cases hp : env (.putBlock block) with
    | some e =>
      rw [fullJob_new_putFail fsb gen l env now blockNum block fObj hstep tr e hg hp]
      exact List.prefix_append tr [Eff.db (.putBlock block)]
    | none =>
      rw [fullJob_new_putOk fsb gen l env now blockNum block fObj hstep tr hg hp]
      exact (List.prefix_append tr [Eff.db (.putBlock block)]).trans
        (List.prefix_append (tr ++ [Eff.db (.putBlock block)]) _)

/-- Witness for C4 (amended): the first streamable block delivered as New
with all calls succeeding has the two sentinel effects as trace prefix. -/
theorem C4_genesis_sentinel_witness :
    [Eff.db (.putBlock (genesisBlockOf 0 blkA)),
     Eff.db (.updateNowIrreversibleBlock (genesisBlockOf 0 blkA))] <+:
      (FullJob 1 0 l100 envOk 1000 1 blkA fObjNew).2.1 :=
  (C4_genesis_sentinel 1 0 l100 envOk 1000 1 blkA fObjNew rfl).2.2.2
    [Eff.db (.putBlock (genesisBlockOf 0 blkA)),
     Eff.db (.updateNowIrreversibleBlock (genesisBlockOf 0 blkA))] rfl

theorem setHealthy_healthy (l : BigtableLoader) : (setHealthy l).healthy = true := by
  by_cases h : l.healthy <;> simp [setHealthy, h]

theorem setUnhealthy_healthy (l : BigtableLoader) :
    (setUnhealthy l).healthy = false := by
  by_cases h : l.healthy <;> simp [setUnhealthy, h]

/-- C5 counterexample: after a clean stop-block completion the loader
initiates Shutdown with a nil error, and the Launch hooks still mark the
loader unhealthy once the source finishes terminating: health becomes
false without any unexpected source termination. -/
theorem C5_counterexample :
    (setHealthy l100).healthy = true ∧
    (launchLoaderShutdown
      { loader := setHealthy l100, sourceShutdownCause := none }
      none).loader.healthy = false := by
  constructor <;> rfl

/-- C5 (amended): the health flag is false at construction and becomes
true upon every New delivery handled by FullJob, successful or not; it
becomes false whenever the source finishes terminating, which happens both
on an unexpected source termination and after any loader-initiated
shutdown, including a clean stop-block completion. -/
theorem C5_health_lifecycle :
    (∀ addr bs pc, (NewBigtableLoader addr bs pc).healthy = false) ∧
    (∀ fsb gen l env now blockNum block fObj, fObj.step = StepType.stepNew →
      ((FullJob fsb gen l env now blockNum block fObj).1).healthy = true) ∧
    (∀ p err, (launchSourceTerminated p err).loader.healthy = false) ∧
    (∀ p err, p.loader.shutdownCause = none →
      (launchLoaderShutdown p err).loader.healthy = false) := by
  refine ⟨fun addr bs pc => rfl, ?_, ?_, ?_⟩
  · intro fsb gen l env now blockNum block fObj hstep
    rw [fullJob_new_state fsb gen l env now blockNum block fObj hstep]
    exact setHealthy_healthy _
  · intro p err
    exact setUnhealthy_healthy _
  · intro p err hlive
    unfold launchLoaderShutdown
    rw [if_neg (by simp [hlive])]
    exact setUnhealthy_healthy _

/-- Witness for C5 (amended): a handled New delivery turns health on, and
a clean loader-initiated shutdown turns it off. -/
theorem C5_health_lifecycle_witness :
    ((FullJob 1 0 l100 envOk 1000 7 blk5 fObjNew).1).healthy = true ∧
    (launchLoaderShutdown { loader := l100, sourceShutdownCause := none }
      none).loader.healthy = false :=
  ⟨C5_health_lifecycle.2.1 1 0 l100 envOk 1000 7 blk5 fObjNew rfl,
   C5_health_lifecycle.2.2.2 { loader := l100, sourceShutdownCause := none } none rfl⟩

end TrxdbLoader
